import Mathlib

/-!
Shallow embedding of the Kong reconciliation script
(src/kong-configurator/kong.py).

The script reconciles a desired-state document against the gateway's
live state.  Pure data is modelled by structures mirroring the Python
dicts; the HTTP write calls become explicit `Action` values collected
in order; the per-entity status line becomes the returned report
string.  Python's `d.get(k, default)` on an optional key is modelled
by an `Option` field read with `getD`.
-/

namespace Kong

/-- A JSON-like value, covering exactly the shapes the plugin config
payloads in the script use. -/
inductive JValue where
  | str (s : String)
  | nat (n : Nat)
  | bool (b : Bool)
  | strList (xs : List String)
  | obj (kvs : List (String × JValue))

/-- A live plugin entry from `GET /plugins` (fields the script reads). -/
structure Plugin where
  name : String
  api_id : String
  id : String
  created_at : Nat
deriving DecidableEq

/-- A live API entry from `GET /apis` (fields the script reads). -/
structure LiveApi where
  name : String
  id : String
  created_at : Nat
deriving DecidableEq

/-- A live consumer entry from `GET /consumers`. -/
structure Consumer where
  username : String
  id : String
  created_at : Nat
deriving DecidableEq

/-- A live OAuth credential from `GET /consumers/{u}/oauth2`. -/
structure OAuthCred where
  name : String
  consumer_id : String
  id : String
  created_at : Nat
deriving DecidableEq

/-- The nested `babylon_auth_header` object of an API declaration. -/
structure BabylonAuthHeaderConfig where
  enabled : Bool
  auth_service : String
  http_timeout_msec : Nat
  cache_timeout_sec : Nat
deriving DecidableEq

/-- The nested `cors` object of an API declaration. -/
structure CorsConfig where
  enabled : Bool
  origin : String
  methods : String
  headers : String
  exposed_headers : String
  credentials : Bool
  max_age : Nat
  preflight_continue : Bool
deriving DecidableEq

/-- The nested `tcp_log` object of the global kong config. -/
structure TcpLogConfig where
  enabled : Bool
  host : Option String := none
  port : Option String := none
  timeout : Option Nat := none
  keepalive : Option Nat := none
deriving DecidableEq

/-- A desired API declaration from the `apis` section of the config
file.  `Option` fields model keys that may be absent from the JSON
object; `id`/`created_at` are written back by `configure_api` after
the upsert (lines 511-512 of the script). -/
structure Api where
  name : String
  upstream_url : String
  hosts : Option String := none
  uris : Option String := none
  methods : Option String := none
  strip_uri : Option Bool := none
  preserve_host : Option Bool := none
  retries : Option Nat := none
  upstream_connect_timeout : Option Nat := none
  upstream_send_timeout : Option Nat := none
  upstream_read_timeout : Option Nat := none
  https_only : Option Bool := none
  http_if_terminated : Option Bool := none
  auth : Option String := none
  oauth2_anonymous : Option String := none
  internal : Option Bool := none
  additional_internal_ips : Option (List String) := none
  babylon_auth_header : Option BabylonAuthHeaderConfig := none
  cookie_auth : Option Bool := none
  cookie_auth_csrf : Option Bool := none
  oauth2_extension_plugin : Option Bool := none
  cors : Option CorsConfig := none
  add_headers : Option (List (String × String)) := none
  id : String := ""
  created_at : Option Nat := none

/-- The global `kong` section of the config file. -/
structure KongConfig where
  kong_token_expiration : Nat
  oauth_provision_key : String
  internal_ips_whitelist : List String
  tcp_log : Option TcpLogConfig := none

/-- Payload of a plugin upsert (`PUT /apis/{id}/plugins/`).  The
`enabled` field is `none` when the script omits the key (the
correlation-id payload has no `enabled` entry). -/
structure PluginPayload where
  name : String
  enabled : Option Bool := none
  config : JValue
  id : Option String := none
  created_at : Option Nat := none

/-- A write issued against the gateway during plugin reconciliation. -/
inductive Action where
  | putPlugin (api_id : String) (payload : PluginPayload)
  | deletePlugin (api_id : String) (plugin_id : String)

/-- Payload of the API upsert (`PUT /apis`), lines 486-500. -/
structure ApiPayload where
  name : String
  hosts : String
  uris : String
  methods : String
  upstream_url : String
  strip_uri : Bool
  preserve_host : Bool
  retries : Nat
  upstream_connect_timeout : Nat
  upstream_send_timeout : Nat
  upstream_read_timeout : Nat
  https_only : Bool
  http_if_terminated : Bool
  id : Option String := none
  created_at : Option Nat := none
deriving DecidableEq

/-- The Python identity-merge loops (`for e in coll: if key(e): dst = e`)
keep overwriting on every match, so the value left behind is the last
matching element.  This models that loop exactly as a left fold. -/
def lastMatch (p : α → Bool) (xs : List α) : Option α :=
  xs.foldl (fun acc x => if p x then some x else acc) none

/-- Direct translation of `find_plugin` (lines 536-543): linear scan
returning the first plugin whose name and parent api id both match. -/
def find_plugin (plugins : List Plugin) (api_id : String) (plugin_name : String) :
    Option Plugin :=
  match plugins with
  | [] => none
  | p :: rest =>
      if p.name == plugin_name && p.api_id == api_id then some p
      else find_plugin rest api_id plugin_name

/-- Translation of `configure_oauth2` (lines 85-141). -/
def configure_oauth2 (api : Api) (kong_config : KongConfig)
    (current_plugins : List Plugin) : List Action × String :=
  let current_plugin := find_plugin current_plugins api.id "oauth2"
  if api.auth ≠ some "none" then
    let base : PluginPayload :=
      { name := "oauth2"
        enabled := some true
        config := .obj
          [ ("mandatory_scope", .bool false)
          , ("token_expiration", .nat kong_config.kong_token_expiration)
          , ("enable_implicit_grant", .bool false)
          , ("hide_credentials", .bool false)
          , ("enable_password_grant", .bool true)
          , ("global_credentials", .bool true)
          , ("accept_http_if_already_terminated", .bool false)
          , ("provision_key", .str kong_config.oauth_provision_key)
          , ("enable_client_credentials", .bool false)
          , ("enable_authorization_code", .bool true)
          , ("anonymous", .str (api.oauth2_anonymous.getD "")) ] }
    let payload :=
      match current_plugin with
      | some p => { base with id := some p.id, created_at := some p.created_at }
      | none => base
    ([Action.putPlugin api.id payload], "OK")
  else
    match current_plugin with
    | some p => ([Action.deletePlugin api.id p.id], "Removed")
    | none => ([], "None")

/-- Translation of `configure_correlation_id` (lines 144-164):
unconditional upsert; identity merged by the overwrite loop. -/
def configure_correlation_id (api : Api) (current_plugins : List Plugin) :
    List Action × String :=
  let m := lastMatch
    (fun p => p.name == "correlation-id" && p.api_id == api.id) current_plugins
  let payload : PluginPayload :=
    { name := "correlation-id"
      config := .obj
        [ ("header_name", .str "babylon-request-id")
        , ("generator", .str "uuid")
        , ("echo_downstream", .bool true) ]
      id := m.map Plugin.id
      created_at := m.map Plugin.created_at }
  ([Action.putPlugin api.id payload], "OK")

/-- Translation of `configure_ip_restriction` (lines 167-213). -/
def configure_ip_restriction (api : Api) (kong_config : KongConfig)
    (current_plugins : List Plugin) : List Action × String :=
  let internal := api.internal.getD false
  let current_plugin := find_plugin current_plugins api.id "ip-restriction"
  if internal then
    let additional_internal_ips := api.additional_internal_ips.getD []
    let whitelist := String.intercalate ","
      (kong_config.internal_ips_whitelist ++ additional_internal_ips)
    let base : PluginPayload :=
      { name := "ip-restriction"
        enabled := some true
        config := .obj [("whitelist", .str whitelist)] }
    let payload :=
      match current_plugin with
      | some p => { base with id := some p.id, created_at := some p.created_at }
      | none => base
    ([Action.putPlugin api.id payload], "OK")
  else
    match current_plugin with
    | some p => ([Action.deletePlugin api.id p.id], "Removed")
    | none => ([], "None")

/-- Translation of `configure_babylon_auth_header` (lines 216-243). -/
def configure_babylon_auth_header (api : Api) (current_plugins : List Plugin) :
    List Action × String :=
  match api.babylon_auth_header with
  | some bah =>
      if bah.enabled then
        let m := lastMatch
          (fun p => p.name == "babylon-auth-header" && p.api_id == api.id)
          current_plugins
        let payload : PluginPayload :=
          { name := "babylon-auth-header"
            enabled := some true
            config := .obj
              [ ("auth_service", .str bah.auth_service)
              , ("http_timeout_msec", .nat bah.http_timeout_msec)
              , ("cache_timeout_sec", .nat bah.cache_timeout_sec) ]
            id := m.map Plugin.id
            created_at := m.map Plugin.created_at }
        ([Action.putPlugin api.id payload], "OK")
      else ([], "None")
  | none => ([], "None")

/-- Translation of `configure_json_cookies_to_headers` (lines 246-272). -/
def configure_json_cookies_to_headers (api : Api) (current_plugins : List Plugin) :
    List Action × String :=
  let cookie_to_header_enabled := api.cookie_auth.getD false
  if cookie_to_header_enabled then
    let m := lastMatch
      (fun p => p.name == "json-cookies-to-headers" && p.api_id == api.id)
      current_plugins
    let payload : PluginPayload :=
      { name := "json-cookies-to-headers"
        enabled := some true
        config := .obj
          [ ("cookie_name", .str "autologin_token")
          , ("field_name", .str "kong_token") ]
        id := m.map Plugin.id
        created_at := m.map Plugin.created_at }
    ([Action.putPlugin api.id payload], "OK")
  else ([], "None")

/-- Translation of `configure_json_cookies_csrf` (lines 274-301). -/
def configure_json_cookies_csrf (api : Api) (current_plugins : List Plugin) :
    List Action × String :=
  let cookies_json_csrf_enabled := api.cookie_auth_csrf.getD false
  if cookies_json_csrf_enabled then
    let m := lastMatch
      (fun p => p.name == "json-cookies-csrf" && p.api_id == api.id)
      current_plugins
    let payload : PluginPayload :=
      { name := "json-cookies-csrf"
        enabled := some true
        config := .obj
          [ ("cookie_name", .str "autologin_info")
          , ("csrf_field_name", .str "csrf_token")
          , ("csrf_header_name", .str "x-security-token") ]
        id := m.map Plugin.id
        created_at := m.map Plugin.created_at }
    ([Action.putPlugin api.id payload], "OK")
  else ([], "None")

/-- Translation of `configure_oauth2_extension` (lines 304-326).  The
identity-merge loop scans for plugins named "ip-restriction" (line 314),
exactly as the source does. -/
def configure_oauth2_extension (api : Api) (current_plugins : List Plugin) :
    List Action × String :=
  let oauth2_extension_plugin := api.oauth2_extension_plugin.getD false
  if oauth2_extension_plugin then
    let m := lastMatch
      (fun p => p.name == "ip-restriction" && p.api_id == api.id)
      current_plugins
    let payload : PluginPayload :=
      { name := "oauth2-extension"
        enabled := some true
        config := .obj []
        id := m.map Plugin.id
        created_at := m.map Plugin.created_at }
    ([Action.putPlugin api.id payload], "OK")
  else ([], "None")

/-- Translation of `configure_cors` (lines 329-361). -/
def configure_cors (api : Api) (kong_config : KongConfig)
    (current_plugins : List Plugin) : List Action × String :=
  match api.cors with
  | some cc =>
      if cc.enabled then
        let m := lastMatch
          (fun p => p.name == "cors" && p.api_id == api.id) current_plugins
        let payload : PluginPayload :=
          { name := "cors"
            enabled := some true
            config := .obj
              [ ("origins", .str cc.origin)
              , ("methods", .str cc.methods)
              , ("headers", .str cc.headers)
              , ("exposed_headers", .str cc.exposed_headers)
              , ("credentials", .bool cc.credentials)
              , ("max_age", .nat cc.max_age)
              , ("preflight_continue", .bool cc.preflight_continue) ]
            id := m.map Plugin.id
            created_at := m.map Plugin.created_at }
        ([Action.putPlugin api.id payload], "OK")
      else ([], "None")
  | none => ([], "None")

/-- Translation of `configure_tcp_log` (lines 364-391); the condition
comes from the global kong config, not the API. -/
def configure_tcp_log (api : Api) (kong_config : KongConfig)
    (current_plugins : List Plugin) : List Action × String :=
  match kong_config.tcp_log with
  | some tl =>
      if tl.enabled then
        let m := lastMatch
          (fun p => p.name == "tcp-log" && p.api_id == api.id) current_plugins
        let payload : PluginPayload :=
          { name := "tcp-log"
            enabled := some true
            config := .obj
              [ ("host", .str (tl.host.getD "127.0.0.1"))
              , ("port", .str (tl.port.getD "9901"))
              , ("timeout", .nat (tl.timeout.getD 10000))
              , ("keepalive", .nat (tl.keepalive.getD 60000)) ]
            id := m.map Plugin.id
            created_at := m.map Plugin.created_at }
        ([Action.putPlugin api.id payload], "OK")
      else ([], "None")
  | none => ([], "None")

/-- Translation of `configure_response_transformer` (lines 393-438).
`api.get("add_headers", None)` is truthy exactly when the key is
present with a non-empty mapping. -/
def configure_response_transformer (api : Api) (kong_config : KongConfig)
    (current_plugins : List Plugin) : List Action × String :=
  let current_plugin := find_plugin current_plugins api.id "response-transformer"
  let onFalse : List Action × String :=
    match current_plugin with
    | some p => ([Action.deletePlugin api.id p.id], "Removed")
    | none => ([], "None")
  match api.add_headers with
  | none => onFalse
  | some hdrs =>
      if hdrs.isEmpty then onFalse
      else
        let headers_array := hdrs.map (fun kv => kv.1 ++ ": " ++ kv.2)
        let base : PluginPayload :=
          { name := "response-transformer"
            enabled := some true
            config := .obj [("add", .obj [("headers", .strList headers_array)])] }
        let payload :=
          match current_plugin with
          | some p => { base with id := some p.id, created_at := some p.created_at }
          | none => base
        ([Action.putPlugin api.id payload], "OK")

/-- The ten plugin kinds the script reconciles. -/
inductive PluginKind where
  | oauth2
  | correlationId
  | ipRestriction
  | babylonAuthHeader
  | jsonCookiesToHeaders
  | jsonCookiesCsrf
  | oauth2Extension
  | cors
  | tcpLog
  | responseTransformer
deriving DecidableEq

/-- The gateway-side plugin name of each kind. -/
def kindName : PluginKind → String
  | .oauth2 => "oauth2"
  | .correlationId => "correlation-id"
  | .ipRestriction => "ip-restriction"
  | .babylonAuthHeader => "babylon-auth-header"
  | .jsonCookiesToHeaders => "json-cookies-to-headers"
  | .jsonCookiesCsrf => "json-cookies-csrf"
  | .oauth2Extension => "oauth2-extension"
  | .cors => "cors"
  | .tcpLog => "tcp-log"
  | .responseTransformer => "response-transformer"

/-- The guard each reconciler evaluates before building its payload,
read off the corresponding `if` in the source.  The correlation-id
reconciler has no guard, so its condition is constantly true. -/
def kindCondition (k : PluginKind) (api : Api) (kong_config : KongConfig) : Bool :=
  match k with
  | .oauth2 => !(api.auth == some "none")
  | .correlationId => true
  | .ipRestriction => api.internal.getD false
  | .babylonAuthHeader => (api.babylon_auth_header.map (·.enabled)).getD false
  | .jsonCookiesToHeaders => api.cookie_auth.getD false
  | .jsonCookiesCsrf => api.cookie_auth_csrf.getD false
  | .oauth2Extension => api.oauth2_extension_plugin.getD false
  | .cors => (api.cors.map (·.enabled)).getD false
  | .tcpLog => (kong_config.tcp_log.map (·.enabled)).getD false
  | .responseTransformer =>
      match api.add_headers with
      | some hdrs => !hdrs.isEmpty
      | none => false

/-- Dispatch to the reconciler of each plugin kind. -/
def runReconciler (k : PluginKind) (api : Api) (kong_config : KongConfig)
    (current_plugins : List Plugin) : List Action × String :=
  match k with
  | .oauth2 => configure_oauth2 api kong_config current_plugins
  | .correlationId => configure_correlation_id api current_plugins
  | .ipRestriction => configure_ip_restriction api kong_config current_plugins
  | .babylonAuthHeader => configure_babylon_auth_header api current_plugins
  | .jsonCookiesToHeaders => configure_json_cookies_to_headers api current_plugins
  | .jsonCookiesCsrf => configure_json_cookies_csrf api current_plugins
  | .oauth2Extension => configure_oauth2_extension api current_plugins
  | .cors => configure_cors api kong_config current_plugins
  | .tcpLog => configure_tcp_log api kong_config current_plugins
  | .responseTransformer => configure_response_transformer api kong_config current_plugins

/-- The sequence of plugin reconciler calls issued by `configure_api`
(lines 514-533), each tagged with its kind, in the order they appear
in the source. -/
def pluginSequence (api : Api) (kong_config : KongConfig)
    (current_plugins : List Plugin) : List (PluginKind × (List Action × String)) :=
  [ (.oauth2, configure_oauth2 api kong_config current_plugins)
  , (.correlationId, configure_correlation_id api current_plugins)
  , (.ipRestriction, configure_ip_restriction api kong_config current_plugins)
  , (.babylonAuthHeader, configure_babylon_auth_header api current_plugins)
  , (.oauth2Extension, configure_oauth2_extension api current_plugins)
  , (.cors, configure_cors api kong_config current_plugins)
  , (.jsonCookiesToHeaders, configure_json_cookies_to_headers api current_plugins)
  , (.jsonCookiesCsrf, configure_json_cookies_csrf api current_plugins)
  , (.tcpLog, configure_tcp_log api kong_config current_plugins)
  , (.responseTransformer, configure_response_transformer api kong_config current_plugins) ]

/-- Payload of the API upsert, built by lines 486-505: defaults are
applied for every optional field, `retries` is the literal 0, and the
identity-merge loop over the live APIs overwrites on every name match. -/
def apiUpsertPayload (api : Api) (current_apis : List LiveApi) : ApiPayload :=
  let base : ApiPayload :=
    { name := api.name
      hosts := api.hosts.getD ""
      uris := api.uris.getD ""
      methods := api.methods.getD ""
      upstream_url := api.upstream_url
      strip_uri := api.strip_uri.getD false
      preserve_host := api.preserve_host.getD true
      retries := 0
      upstream_connect_timeout := api.upstream_connect_timeout.getD 30000
      upstream_send_timeout := api.upstream_send_timeout.getD 30000
      upstream_read_timeout := api.upstream_read_timeout.getD 30000
      https_only := api.https_only.getD false
      http_if_terminated := api.http_if_terminated.getD false }
  match lastMatch (fun e => e.name == api.name) current_apis with
  | some e => { base with id := some e.id, created_at := some e.created_at }
  | none => base

/-- Outcome of the `requests.put(kong_endpoint + '/apis', ...)` call as
seen by the script: either the call raised (transport error), or it
returned and `r.json()` either contains `id`/`created_at` or does not. -/
inductive PutApiResult where
  | transportError
  | response (ident : Option (String × Nat))
deriving DecidableEq

/-- Uncaught Python exceptions that abort the whole run. -/
inductive Crash where
  | nameError
  | keyError
deriving DecidableEq

/-- One observable step of `configure_api`. -/
inductive Event where
  | apiPut (payload : ApiPayload)
  | plugin (k : PluginKind) (acts : List Action) (report : String)

/-- The kind tag of a plugin event. -/
def eventKind : Event → Option PluginKind
  | .apiPut _ => none
  | .plugin k _ _ => some k

/-- Translation of `configure_api` (lines 484-533).  The try/except
around the upsert catches the transport error and prints a diagnostic,
but the very next statement `api["id"] = r.json()["id"]` reads the
variable `r`, which was never bound when the put raised, so a
`NameError` escapes and aborts the run; likewise a response body
without an `id` key raises an uncaught `KeyError`.  On success the
returned id/created_at are written onto the in-memory api object
before the ten plugin reconcilers run. -/
def configure_api (api : Api) (current_apis : List LiveApi)
    (kong_config : KongConfig) (current_plugins : List Plugin)
    (put_result : PutApiResult) : Except Crash (List Event) :=
  let api_config := apiUpsertPayload api current_apis
  match put_result with
  | .transportError => .error .nameError
  | .response none => .error .keyError
  | .response (some (newId, newCreated)) =>
      let api' := { api with id := newId, created_at := some newCreated }
      .ok (Event.apiPut api_config ::
        (pluginSequence api' kong_config current_plugins).map
          (fun e => Event.plugin e.1 e.2.1 e.2.2))

/-- The top-level API loop (lines 551-554): each declared API is
reconciled in order, paired here with the world's outcome for its
upsert call; an uncaught exception aborts the remainder of the run. -/
def runApis (current_apis : List LiveApi) (kong_config : KongConfig)
    (current_plugins : List Plugin) :
    List (Api × PutApiResult) → Except Crash (List (List Event))
  | [] => .ok []
  | (a, r) :: rest =>
      match configure_api a current_apis kong_config current_plugins r with
      | .error c => .error c
      | .ok evs =>
          match runApis current_apis kong_config current_plugins rest with
          | .error c => .error c
          | .ok evss => .ok (evs :: evss)

/-- A consumer declaration from the `consumers` /
`anonymous_consumers` sections. -/
structure ConsumerDecl where
  username : String
  oauth_client_id : String
  oauth_client_secret : String
deriving DecidableEq

/-- Payload of the consumer upsert (`PUT /consumers`). -/
structure ConsumerPayload where
  username : String
  id : Option String := none
  created_at : Option Nat := none
deriving DecidableEq

/-- Payload of the credential upsert (`PUT /consumers/{u}/oauth2`). -/
structure OAuthPayload where
  name : String
  client_id : String
  client_secret : String
  redirect_uri : String
  consumer_id : Option String := none
  id : Option String := none
  created_at : Option Nat := none
deriving DecidableEq

/-- An HTTP call issued by `configure_consumer`, in program order. -/
inductive ConsumerAction where
  | putConsumer (payload : ConsumerPayload)
  | getOauthCreds (username : String)
  | putOauthCred (username : String) (payload : OAuthPayload)

/-- Translation of `configure_consumer` (lines 441-481).  The live
credential list returned by the GET and the id/created_at of the
credential PUT response are supplied by the caller as the world's
behavior.  The whole credential block is guarded by `if not anonymous`. -/
def configure_consumer (consumer_config : ConsumerDecl)
    (current_consumers : List Consumer) (world_creds : List OAuthCred)
    (anonymous : Bool) : List ConsumerAction :=
  let m := lastMatch
    (fun c => c.username == consumer_config.username) current_consumers
  let existing_consumer : ConsumerPayload :=
    { username := consumer_config.username
      id := m.map Consumer.id
      created_at := m.map Consumer.created_at }
  let acts := [ConsumerAction.putConsumer existing_consumer]
  if anonymous then acts
  else
    let base : OAuthPayload :=
      { name := consumer_config.username
        client_id := consumer_config.oauth_client_id
        client_secret := consumer_config.oauth_client_secret
        redirect_uri := "http://example.com/unused" }
    let mc := lastMatch
      (fun oc => oc.name == consumer_config.username) world_creds
    let consumer_oauth :=
      match mc with
      | some oc =>
          { base with consumer_id := some oc.consumer_id
                      id := some oc.id
                      created_at := some oc.created_at }
      | none => base
    acts ++
      [ ConsumerAction.getOauthCreds consumer_config.username
      , ConsumerAction.putOauthCred consumer_config.username consumer_oauth ]

/-- A small desired API used for concrete evaluations. -/
def demoApi : Api := { name := "svc", upstream_url := "http://upstream", id := "api-1" }

/-- A small global config used for concrete evaluations. -/
def demoCfg : KongConfig :=
  { kong_token_expiration := 7200
    oauth_provision_key := "pk"
    internal_ips_whitelist := ["10.0.0.0/8"] }

/-- A live ip-restriction plugin attached to the demo API. -/
def c1Plugins : List Plugin := [⟨"ip-restriction", "api-1", "p-old", 5⟩]

/-- A declared-but-disabled cors block. -/
def c2Cors : CorsConfig :=
  { enabled := false, origin := "o", methods := "m", headers := "h"
    exposed_headers := "e", credentials := false, max_age := 60
    preflight_continue := false }

/-- The demo API with a declared-but-disabled cors block. -/
def c2Api : Api := { demoApi with cors := some c2Cors }

/-- A live cors plugin attached to the demo API. -/
def c2Plugins : List Plugin := [⟨"cors", "api-1", "cors-old", 3⟩]

/-- The demo API with the oauth2-extension flag set. -/
def c4Api : Api := { demoApi with oauth2_extension_plugin := some true }

/-- A live snapshot holding both an oauth2-extension and an
ip-restriction plugin for the demo API. -/
def c4Plugins : List Plugin :=
  [⟨"oauth2-extension", "api-1", "ext-1", 11⟩, ⟨"ip-restriction", "api-1", "ipr-1", 12⟩]

/-- Two live APIs sharing the name of the demo API. -/
def c5Live : List LiveApi := [⟨"svc", "id-first", 1⟩, ⟨"svc", "id-second", 2⟩]

/-- A second declared API, reconciled after the demo API. -/
def c6SecondApi : Api := { name := "svc2", upstream_url := "http://upstream2" }

/-- The demo API with the spec's add_headers example. -/
def c7Api : Api := { demoApi with add_headers := some [("X-A", "1"), ("Y-B", "2")] }

/-- A live snapshot holding an oauth2 plugin for a different API ahead
of one for the demo API. -/
def c9Plugins : List Plugin :=
  [⟨"oauth2", "api-2", "pX", 1⟩, ⟨"oauth2", "api-1", "pY", 2⟩]

/-!
Helper lemmas about the two scan shapes: `find_plugin` (explicit
early-return loop) and `lastMatch` (overwrite-on-match loop).
-/

/-- The early-return loop of `find_plugin` is the standard first-match
scan. -/
theorem find_plugin_eq_find? (plugins : List Plugin) (x n : String) :
    find_plugin plugins x n =
      plugins.find? (fun p => p.name == n && p.api_id == x) := by
  induction plugins with
  | nil => rfl
  | cons p rest ih =>
      simp only [find_plugin, List.find?_cons]
      cases h : p.name == n && p.api_id == x <;> simp [h, ih]

/-- The overwrite loop keeps the last match: folding from the left with
overwrite equals the first match of the reversed list. -/
theorem lastMatch_eq_find?_reverse (p : α → Bool) (xs : List α) :
    lastMatch p xs = xs.reverse.find? p := by
  suffices h : ∀ (acc : Option α),
      xs.foldl (fun a x => if p x then some x else a) acc =
        (xs.reverse.find? p).elim acc some by
    have := h none
    cases hf : xs.reverse.find? p <;> simp [lastMatch, hf] at this ⊢ <;> exact this
  induction xs with
  | nil => intro acc; rfl
  | cons x xs ih =>
      intro acc
      simp only [List.foldl_cons, List.reverse_cons, List.find?_append]
      rw [ih]
      cases hf : xs.reverse.find? p with
      | some y => simp [hf]
      | none =>
          cases hx : p x <;> simp [hf, hx, List.find?_cons, Option.elim]

/-- `find_plugin` returns none exactly when no plugin in the list has
the requested name and parent api id. -/
theorem find_plugin_eq_none_iff (plugins : List Plugin) (x n : String) :
    find_plugin plugins x n = none ↔
      ∀ p ∈ plugins, ¬(p.name = n ∧ p.api_id = x) := by
  rw [find_plugin_eq_find?, List.find?_eq_none]
  constructor
  · intro h p hp hpn
    have := h p hp
    simp [hpn.1, hpn.2] at this
  · intro h p hp
    by_contra hb
    simp only [Bool.not_eq_false, Bool.and_eq_true, beq_iff_eq] at hb
    exact h p hp ⟨hb.1, hb.2⟩

/-- A plugin returned by `find_plugin` is in the list and has the
requested name and parent api id. -/
theorem find_plugin_some_props (plugins : List Plugin) (x n : String)
    (p : Plugin) (h : find_plugin plugins x n = some p) :
    p ∈ plugins ∧ p.name = n ∧ p.api_id = x := by
  rw [find_plugin_eq_find?] at h
  have hmem := List.mem_of_find?_eq_some h
  have hp := List.find?_some h
  simp only [Bool.and_eq_true, beq_iff_eq] at hp
  exact ⟨hmem, hp.1, hp.2⟩

/-- When some plugin in the list matches, `find_plugin` returns one. -/
theorem find_plugin_isSome_of_mem (plugins : List Plugin) (x n : String)
    (p : Plugin) (hp : p ∈ plugins) (hn : p.name = n) (hx : p.api_id = x) :
    ∃ q, find_plugin plugins x n = some q := by
  cases hf : find_plugin plugins x n with
  | some q => exact ⟨q, rfl⟩
  | none =>
      exact absurd ⟨hn, hx⟩ ((find_plugin_eq_none_iff plugins x n).mp hf p hp)

/-- C9: `find_plugin` only ever returns a plugin whose name is the
requested one and whose api_id is the target API's — never a plugin of
a different API, even with the same name — and it returns none exactly
when no plugin in the list matches both fields. -/
theorem find_plugin_correct (plugins : List Plugin) (x n : String) :
    (∀ p, find_plugin plugins x n = some p →
      p.api_id = x ∧ p.name = n ∧ p ∈ plugins) ∧
    (find_plugin plugins x n = none ↔
      ∀ p ∈ plugins, ¬(p.name = n ∧ p.api_id = x)) := by
  constructor
  · intro p hp
    obtain ⟨hm, hn, hx⟩ := find_plugin_some_props plugins x n p hp
    exact ⟨hx, hn, hm⟩
  · exact find_plugin_eq_none_iff plugins x n

/-- Witness for C9: with a same-named plugin of another API listed
first, `find_plugin` skips it and returns the one owned by the target
API. -/
theorem find_plugin_correct_witness :
    find_plugin c9Plugins "api-1" "oauth2" = some ⟨"oauth2", "api-1", "pY", 2⟩ ∧
    ((⟨"oauth2", "api-1", "pY", 2⟩ : Plugin).api_id = "api-1" ∧
      (⟨"oauth2", "api-1", "pY", 2⟩ : Plugin).name = "oauth2" ∧
      (⟨"oauth2", "api-1", "pY", 2⟩ : Plugin) ∈ c9Plugins) :=
  ⟨rfl, (find_plugin_correct c9Plugins "api-1" "oauth2").1 _ rfl⟩

/-- C10: the API upsert payload always carries retries = 0, and a
declared retries value on the API object is ignored entirely. -/
theorem api_payload_retries_zero (api : Api) (current_apis : List LiveApi) (n : Nat) :
    (apiUpsertPayload api current_apis).retries = 0 ∧
    apiUpsertPayload { api with retries := some n } current_apis =
      apiUpsertPayload api current_apis := by
  constructor
  · cases hm : lastMatch (fun e => e.name == api.name) current_apis <;>
      simp [apiUpsertPayload, hm]
  · rfl

/-- C5 counterexample: against two live APIs that both carry the
declared API's name, the inline identity scan leaves behind the id of
the second (last) one, not the first. -/
theorem inline_scan_counterexample :
    (c5Live.map LiveApi.name = ["svc", "svc"] ∧ demoApi.name = "svc") ∧
    (apiUpsertPayload demoApi c5Live).id = some "id-second" ∧
    (c5Live.head?.map LiveApi.id) = some "id-first" ∧
    some "id-second" ≠ some "id-first" := by
  refine ⟨⟨rfl, rfl⟩, rfl, rfl, by decide⟩

/-- C5 amended: `find_plugin` is a first-match scan, but the inline
identity scans over live APIs (in `configure_api`) and over live
consumers / credentials (the `lastMatch` loops) keep the last matching
entity, so on duplicate keys the last one in the collection wins
there. -/
theorem match_step_semantics (plugins : List Plugin) (x n : String)
    (api : Api) (current_apis : List LiveApi) (cs : List Consumer) (u : String) :
    find_plugin plugins x n =
      plugins.find? (fun p => p.name == n && p.api_id == x) ∧
    (apiUpsertPayload api current_apis).id =
      (current_apis.reverse.find? (fun e => e.name == api.name)).map LiveApi.id ∧
    lastMatch (fun c => c.username == u) cs =
      cs.reverse.find? (fun c => c.username == u) := by
  refine ⟨find_plugin_eq_find? plugins x n, ?_, lastMatch_eq_find?_reverse _ cs⟩
  rw [← lastMatch_eq_find?_reverse]
  cases hm : lastMatch (fun e => e.name == api.name) current_apis <;>
    simp [apiUpsertPayload, hm]

/-- C8: reconciling a consumer with anonymous = true issues exactly
the consumer upsert — no credential fetch and no credential upsert. -/
theorem anonymous_consumer_only_upsert (consumer_config : ConsumerDecl)
    (current_consumers : List Consumer) (world_creds : List OAuthCred) :
    ∃ payload,
      configure_consumer consumer_config current_consumers world_creds true =
        [ConsumerAction.putConsumer payload] ∧
      payload.username = consumer_config.username :=
  ⟨_, rfl, rfl⟩

/-- C6: a transport error on one API's upsert is caught and logged,
but the subsequent `api["id"] = r.json()["id"]` reads the never-bound
variable `r`, so the run aborts with a NameError instead of continuing
to the remaining APIs; with successful upserts both APIs are
reconciled. -/
theorem upsert_failure_aborts_run :
    runApis [] demoCfg []
        [(demoApi, PutApiResult.transportError),
         (c6SecondApi, PutApiResult.response (some ("id-2", 9)))] =
      Except.error Crash.nameError ∧
    (∃ e1 e2, runApis [] demoCfg []
        [(demoApi, PutApiResult.response (some ("id-1", 8))),
         (c6SecondApi, PutApiResult.response (some ("id-2", 9)))] =
      Except.ok [e1, e2]) :=
  ⟨rfl, ⟨_, _, rfl⟩⟩

/-- C1: for each Shape-A kind (oauth2, ip-restriction,
response-transformer), when the kind's condition is false, the
reconciler deletes a matched live plugin by id and reports "Removed",
and issues no write at all (reporting "None") when no live plugin of
that kind exists for the API. -/
theorem shapeA_false_branch (k : PluginKind) (api : Api)
    (kong_config : KongConfig) (plugins : List Plugin)
    (hk : k = PluginKind.oauth2 ∨ k = PluginKind.ipRestriction ∨
          k = PluginKind.responseTransformer)
    (hc : kindCondition k api kong_config = false) :
    ((∃ p ∈ plugins, p.name = kindName k ∧ p.api_id = api.id) →
      ∃ p, find_plugin plugins api.id (kindName k) = some p ∧
        runReconciler k api kong_config plugins =
          ([Action.deletePlugin api.id p.id], "Removed")) ∧
    ((∀ p ∈ plugins, ¬(p.name = kindName k ∧ p.api_id = api.id)) →
      runReconciler k api kong_config plugins = ([], "None")) := by
  rcases hk with hk | hk | hk <;> subst hk
  · simp only [kindCondition, Bool.not_eq_false', beq_iff_eq] at hc
    constructor
    · rintro ⟨p, hp, hn, hx⟩
      obtain ⟨q, hq⟩ := find_plugin_isSome_of_mem plugins api.id _ p hp hn hx
      exact ⟨q, hq, by
        simp only [kindName] at hq
        simp [runReconciler, configure_oauth2, kindName, hc, hq]⟩
    · intro hnone
      have hf := (find_plugin_eq_none_iff plugins api.id (kindName .oauth2)).mpr hnone
      simp only [kindName] at hf
      simp [runReconciler, configure_oauth2, kindName, hc, hf]
  · simp only [kindCondition] at hc
    constructor
    · rintro ⟨p, hp, hn, hx⟩
      obtain ⟨q, hq⟩ := find_plugin_isSome_of_mem plugins api.id _ p hp hn hx
      exact ⟨q, hq, by
        simp only [kindName] at hq
        simp [runReconciler, configure_ip_restriction, kindName, hc, hq]⟩
    · intro hnone
      have hf := (find_plugin_eq_none_iff plugins api.id (kindName .ipRestriction)).mpr hnone
      simp only [kindName] at hf
      simp [runReconciler, configure_ip_restriction, kindName, hc, hf]
  · constructor
    · rintro ⟨p, hp, hn, hx⟩
      obtain ⟨q, hq⟩ := find_plugin_isSome_of_mem plugins api.id _ p hp hn hx
      cases ha : api.add_headers with
      | none =>
          exact ⟨q, hq, by
            simp only [kindName] at hq
            simp [runReconciler, configure_response_transformer, kindName, ha, hq]⟩
      | some hdrs =>
          simp only [kindCondition, ha, Bool.not_eq_false'] at hc
          exact ⟨q, hq, by
            simp only [kindName] at hq
            simp [runReconciler, configure_response_transformer, kindName, ha, hc, hq]⟩
    · intro hnone
      have hf := (find_plugin_eq_none_iff plugins api.id
        (kindName .responseTransformer)).mpr hnone
      simp only [kindName] at hf
      cases ha : api.add_headers with
      | none =>
          simp [runReconciler, configure_response_transformer, kindName, ha, hf]
      | some hdrs =>
          simp only [kindCondition, ha, Bool.not_eq_false'] at hc
          simp [runReconciler, configure_response_transformer, kindName, ha, hc, hf]

/-- Witness for C1: the ip-restriction reconciler on a non-internal
API with a stale live ip-restriction plugin. -/
theorem shapeA_false_branch_witness :
    kindCondition PluginKind.ipRestriction demoApi demoCfg = false ∧
    (((∃ p ∈ c1Plugins,
        p.name = kindName PluginKind.ipRestriction ∧ p.api_id = demoApi.id) →
      ∃ p, find_plugin c1Plugins demoApi.id (kindName PluginKind.ipRestriction) = some p ∧
        runReconciler PluginKind.ipRestriction demoApi demoCfg c1Plugins =
          ([Action.deletePlugin demoApi.id p.id], "Removed")) ∧
    ((∀ p ∈ c1Plugins,
        ¬(p.name = kindName PluginKind.ipRestriction ∧ p.api_id = demoApi.id)) →
      runReconciler PluginKind.ipRestriction demoApi demoCfg c1Plugins = ([], "None"))) :=
  ⟨rfl, shapeA_false_branch PluginKind.ipRestriction demoApi demoCfg c1Plugins
    (Or.inr (Or.inl rfl)) rfl⟩

/-- C2: for each Shape-B kind (correlation-id, babylon-auth-header,
cors, json-cookies-to-headers, json-cookies-csrf, oauth2-extension,
tcp-log), a false condition issues no write at all — in particular no
delete of an existing live plugin — and only "None" is reported.  The
correlation-id reconciler is unconditional, so its branch is vacuous. -/
theorem shapeB_false_no_write (k : PluginKind) (api : Api)
    (kong_config : KongConfig) (plugins : List Plugin)
    (hk : k = PluginKind.correlationId ∨ k = PluginKind.babylonAuthHeader ∨
          k = PluginKind.jsonCookiesToHeaders ∨ k = PluginKind.jsonCookiesCsrf ∨
          k = PluginKind.oauth2Extension ∨ k = PluginKind.cors ∨
          k = PluginKind.tcpLog)
    (hc : kindCondition k api kong_config = false) :
    runReconciler k api kong_config plugins = ([], "None") := by
  rcases hk with hk | hk | hk | hk | hk | hk | hk <;> subst hk
  · exact absurd hc (by simp [kindCondition])
  · cases hb : api.babylon_auth_header with
    | none => simp [runReconciler, configure_babylon_auth_header, hb]
    | some bah =>
        simp only [kindCondition, hb, Option.map_some', Option.getD_some] at hc
        simp [runReconciler, configure_babylon_auth_header, hb, hc]
  · simp only [kindCondition] at hc
    simp [runReconciler, configure_json_cookies_to_headers, hc]
  · simp only [kindCondition] at hc
    simp [runReconciler, configure_json_cookies_csrf, hc]
  · simp only [kindCondition] at hc
    simp [runReconciler, configure_oauth2_extension, hc]
  · cases hb : api.cors with
    | none => simp [runReconciler, configure_cors, hb]
    | some cc =>
        simp only [kindCondition, hb, Option.map_some', Option.getD_some] at hc
        simp [runReconciler, configure_cors, hb, hc]
  · cases hb : kong_config.tcp_log with
    | none => simp [runReconciler, configure_tcp_log, hb]
    | some tl =>
        simp only [kindCondition, hb, Option.map_some', Option.getD_some] at hc
        simp [runReconciler, configure_tcp_log, hb, hc]

/-- Witness for C2: the cors reconciler on an API whose cors block is
disabled, with a stale live cors plugin that is left untouched. -/
theorem shapeB_false_no_write_witness :
    kindCondition PluginKind.cors c2Api demoCfg = false ∧
    runReconciler PluginKind.cors c2Api demoCfg c2Plugins = ([], "None") :=
  ⟨rfl, shapeB_false_no_write PluginKind.cors c2Api demoCfg c2Plugins
    (Or.inr (Or.inr (Or.inr (Or.inr (Or.inr (Or.inl rfl)))))) rfl⟩

/-- C3 counterexample: the order of the ten reconciler calls in
`configure_api` is not the §4.3 per-kind list order — the
oauth2-extension and cors calls come before the two json-cookies
calls. -/
theorem plugin_order_counterexample :
    (pluginSequence demoApi demoCfg []).map Prod.fst ≠
      [PluginKind.oauth2, PluginKind.correlationId, PluginKind.ipRestriction,
       PluginKind.babylonAuthHeader, PluginKind.jsonCookiesToHeaders,
       PluginKind.jsonCookiesCsrf, PluginKind.oauth2Extension, PluginKind.cors,
       PluginKind.tcpLog, PluginKind.responseTransformer] := by
  decide

/-- C3 amended: for every declared API, `configure_api` runs the API
upsert first and then the ten plugin reconcilers in the fixed source
order oauth2, correlation-id, ip-restriction, babylon-auth-header,
oauth2-extension, cors, json-cookies-to-headers, json-cookies-csrf,
tcp-log, response-transformer. -/
theorem configure_api_order (api : Api) (current_apis : List LiveApi)
    (kong_config : KongConfig) (plugins : List Plugin)
    (newId : String) (newCreated : Nat) :
    ∃ events,
      configure_api api current_apis kong_config plugins
          (PutApiResult.response (some (newId, newCreated))) = Except.ok events ∧
      events.head? = some (Event.apiPut (apiUpsertPayload api current_apis)) ∧
      events.tail.map eventKind =
        [some PluginKind.oauth2, some PluginKind.correlationId,
         some PluginKind.ipRestriction, some PluginKind.babylonAuthHeader,
         some PluginKind.oauth2Extension, some PluginKind.cors,
         some PluginKind.jsonCookiesToHeaders, some PluginKind.jsonCookiesCsrf,
         some PluginKind.tcpLog, some PluginKind.responseTransformer] :=
  ⟨_, rfl, rfl, rfl⟩

/-- C4: with the oauth2-extension flag set, the upsert payload is
named oauth2-extension but its merged identity comes from the live
plugin scan for name "ip-restriction" and the API's id — the last such
match — and never from a live oauth2-extension plugin. -/
theorem oauth2_extension_merges_ip_restriction (api : Api) (plugins : List Plugin)
    (h : api.oauth2_extension_plugin.getD false = true) :
    ∃ payload, configure_oauth2_extension api plugins =
        ([Action.putPlugin api.id payload], "OK") ∧
      payload.name = "oauth2-extension" ∧
      payload.id = (plugins.reverse.find?
        (fun p => p.name == "ip-restriction" && p.api_id == api.id)).map Plugin.id ∧
      payload.created_at = (plugins.reverse.find?
        (fun p => p.name == "ip-restriction" && p.api_id == api.id)).map
          Plugin.created_at := by
  refine ⟨{ name := "oauth2-extension", enabled := some true, config := JValue.obj []
            id := (lastMatch (fun p => p.name == "ip-restriction" &&
              p.api_id == api.id) plugins).map Plugin.id
            created_at := (lastMatch (fun p => p.name == "ip-restriction" &&
              p.api_id == api.id) plugins).map Plugin.created_at },
          ?_, rfl, ?_, ?_⟩
  · simp [configure_oauth2_extension, h]
  · rw [lastMatch_eq_find?_reverse]
  · rw [lastMatch_eq_find?_reverse]

/-- Witness for C4: with both a live oauth2-extension and a live
ip-restriction plugin for the API, the payload carries the
ip-restriction plugin's identity. -/
theorem oauth2_extension_merges_ip_restriction_witness :
    c4Api.oauth2_extension_plugin.getD false = true ∧
    (∃ payload, configure_oauth2_extension c4Api c4Plugins =
        ([Action.putPlugin c4Api.id payload], "OK") ∧
      payload.name = "oauth2-extension" ∧
      payload.id = (c4Plugins.reverse.find?
        (fun p => p.name == "ip-restriction" && p.api_id == c4Api.id)).map Plugin.id ∧
      payload.created_at = (c4Plugins.reverse.find?
        (fun p => p.name == "ip-restriction" && p.api_id == c4Api.id)).map
          Plugin.created_at) :=
  ⟨rfl, oauth2_extension_merges_ip_restriction c4Api c4Plugins rfl⟩

/-- C7: the response-transformer condition holds on a present
non-empty add_headers mapping, and the payload nests, under
add.headers, exactly one "key: value" string per mapping entry in
declared order. -/
theorem response_transformer_headers (api : Api) (kong_config : KongConfig)
    (plugins : List Plugin) (hdrs : List (String × String))
    (h1 : api.add_headers = some hdrs) (h2 : hdrs ≠ []) :
    kindCondition PluginKind.responseTransformer api kong_config = true ∧
    ∃ payload, configure_response_transformer api kong_config plugins =
        ([Action.putPlugin api.id payload], "OK") ∧
      payload.name = "response-transformer" ∧
      payload.config = JValue.obj [("add", JValue.obj [("headers",
        JValue.strList (hdrs.map (fun kv => kv.1 ++ ": " ++ kv.2)))])] := by
  have hemp : hdrs.isEmpty = false := by
    simp [List.isEmpty_iff, h2]
  refine ⟨by simp [kindCondition, h1, hemp], ?_⟩
  cases hf : find_plugin plugins api.id "response-transformer" with
  | none =>
      refine ⟨{ name := "response-transformer", enabled := some true
                config := JValue.obj [("add", JValue.obj [("headers",
                  JValue.strList (hdrs.map (fun kv => kv.1 ++ ": " ++ kv.2)))])] },
              ?_, rfl, rfl⟩
      simp [configure_response_transformer, h1, hemp, hf]
  | some q =>
      refine ⟨{ name := "response-transformer", enabled := some true
                config := JValue.obj [("add", JValue.obj [("headers",
                  JValue.strList (hdrs.map (fun kv => kv.1 ++ ": " ++ kv.2)))])]
                id := some q.id, created_at := some q.created_at },
              ?_, rfl, rfl⟩
      simp [configure_response_transformer, h1, hemp, hf]

/-- Witness for C7: the spec's example mapping produces exactly
["X-A: 1", "Y-B: 2"]. -/
theorem response_transformer_headers_witness :
    c7Api.add_headers = some [("X-A", "1"), ("Y-B", "2")] ∧
    ([("X-A", "1"), ("Y-B", "2")] : List (String × String)) ≠ [] ∧
    (kindCondition PluginKind.responseTransformer c7Api demoCfg = true ∧
    ∃ payload, configure_response_transformer c7Api demoCfg [] =
        ([Action.putPlugin c7Api.id payload], "OK") ∧
      payload.name = "response-transformer" ∧
      payload.config = JValue.obj [("add", JValue.obj [("headers",
        JValue.strList ["X-A: 1", "Y-B: 2"])])]) :=
  ⟨rfl, by decide,
    response_transformer_headers c7Api demoCfg [] [("X-A", "1"), ("Y-B", "2")]
      rfl (by decide)⟩

end Kong
